import Mathlib

/-!
# Verification of the otterdog reconciliation engine against its specification

This file gives a shallow embedding, in Lean 4, of the parts of the otterdog
code base that the verified properties talk about:

* the `Repository` model object and its diff-field filter
  (src/otterdog/models/repository.py);
* the repository-level workflow settings, their validation rules and their
  live-patch generation (src/otterdog/models/repo_workflow_settings.py);
* the REST requester: response checking, single-shot requests and paged
  requests (src/otterdog/providers/github/rest.py);
* the webhook pull-request model and its status mapping
  (src/otterdog/webapp/webhook/github_models.py);
* the pull-request persistence update (src/otterdog/webapp/db/service.py).

Python dataclass attributes in the otterdog model can hold, besides a value of
their annotated type, the `UNSET` sentinel or `None`; they are embedded with
the dynamic value type `AttrValue`.  Stateful operations are embedded by
explicit state passing: database reads become an `existing` argument, HTTP
sessions become a function from requests to responses, and raised exceptions
become `Except` results.
-/

namespace Otterdog

/-- Dynamic value held by a model-object attribute: a concrete boolean or
string, the `UNSET` sentinel (meaning inherit / do not diff), or Python
`None` (explicit absence). -/
inductive AttrValue where
  | boolVal : Bool → AttrValue
  | strVal : String → AttrValue
  | unset : AttrValue
  | null : AttrValue
deriving DecidableEq, Repr

/-- Modelled from the spec: `utils.is_set_and_valid` (otterdog/utils.py is not
under src/); per the spec a value is usable when it is neither the `UNSET`
sentinel nor `None`. -/
def is_set_and_valid (v : AttrValue) : Bool :=
  v ≠ AttrValue.unset ∧ v ≠ AttrValue.null

/-- Modelled from the spec: `BranchProtectionRule`
(otterdog/models/branch_protection_rule.py is not under src/); only its
identity key `pattern` is represented, which is all the embedded operations
touch. -/
structure BranchProtectionRule where
  pattern : AttrValue
deriving DecidableEq, Repr

/-- Embedding of the dataclass `Repository` from
src/otterdog/models/repository.py.  All scalar attributes can hold the
`UNSET` sentinel at runtime, hence each is modelled as `AttrValue`; the
Python field `private` is spelled `private_` because `private` is a Lean
keyword. -/
structure Repository where
  name : AttrValue
  description : AttrValue
  homepage : AttrValue
  private_ : AttrValue
  has_issues : AttrValue
  has_projects : AttrValue
  has_wiki : AttrValue
  default_branch : AttrValue
  allow_rebase_merge : AttrValue
  allow_merge_commit : AttrValue
  allow_squash_merge : AttrValue
  allow_auto_merge : AttrValue
  delete_branch_on_merge : AttrValue
  allow_update_branch : AttrValue
  squash_merge_commit_title : AttrValue
  squash_merge_commit_message : AttrValue
  merge_commit_title : AttrValue
  merge_commit_message : AttrValue
  archived : AttrValue
  allow_forking : AttrValue
  web_commit_signoff_required : AttrValue
  secret_scanning : AttrValue
  secret_scanning_push_protection : AttrValue
  dependabot_alerts_enabled : AttrValue
  branch_protection_rules : List BranchProtectionRule
deriving DecidableEq, Repr

/-- The names of the scalar data fields of `Repository`, in declaration
order (the field names over which `include_field_for_diff_computation` is
consulted during diffing). -/
def Repository.fieldNames : List String :=
  ["name", "description", "homepage", "private", "has_issues", "has_projects",
   "has_wiki", "default_branch", "allow_rebase_merge", "allow_merge_commit",
   "allow_squash_merge", "allow_auto_merge", "delete_branch_on_merge",
   "allow_update_branch", "squash_merge_commit_title",
   "squash_merge_commit_message", "merge_commit_title", "merge_commit_message",
   "archived", "allow_forking", "web_commit_signoff_required",
   "secret_scanning", "secret_scanning_push_protection",
   "dependabot_alerts_enabled"]

/-- `Repository._unavailable_fields_in_archived_repos`: the archive-frozen
field set from src/otterdog/models/repository.py. -/
def Repository.unavailable_fields_in_archived_repos : List String :=
  ["allow_auto_merge", "allow_merge_commit", "allow_rebase_merge",
   "allow_squash_merge", "allow_update_branch", "delete_branch_on_merge",
   "merge_commit_message", "merge_commit_title",
   "squash_merge_commit_message", "squash_merge_commit_title",
   "dependabot_alerts_enabled"]

/-- `Repository.include_field_for_diff_computation` from
src/otterdog/models/repository.py: a field named `secret_scanning` on a
private repository is excluded; on an archived repository exactly the
archive-frozen fields are excluded; everything else is included. -/
def Repository.include_field_for_diff_computation
    (self : Repository) (fieldName : String) : Bool :=
  if fieldName = "secret_scanning" ∧ self.private_ = AttrValue.boolVal true then
    false
  else if self.archived = AttrValue.boolVal true then
    if fieldName ∈ Repository.unavailable_fields_in_archived_repos then
      false
    else
      true
  else
    true

/-- A concrete repository that is both archived and private, with every
other attribute unset. -/
def archivedPrivateRepo : Repository :=
  { name := AttrValue.strVal "test-repo"
    description := AttrValue.unset
    homepage := AttrValue.unset
    private_ := AttrValue.boolVal true
    has_issues := AttrValue.unset
    has_projects := AttrValue.unset
    has_wiki := AttrValue.unset
    default_branch := AttrValue.unset
    allow_rebase_merge := AttrValue.unset
    allow_merge_commit := AttrValue.unset
    allow_squash_merge := AttrValue.unset
    allow_auto_merge := AttrValue.unset
    delete_branch_on_merge := AttrValue.unset
    allow_update_branch := AttrValue.unset
    squash_merge_commit_title := AttrValue.unset
    squash_merge_commit_message := AttrValue.unset
    merge_commit_title := AttrValue.unset
    merge_commit_message := AttrValue.unset
    archived := AttrValue.boolVal true
    allow_forking := AttrValue.unset
    web_commit_signoff_required := AttrValue.unset
    secret_scanning := AttrValue.unset
    secret_scanning_push_protection := AttrValue.unset
    dependabot_alerts_enabled := AttrValue.unset
    branch_protection_rules := [] }

/-- A concrete archived repository that is public (`private` set to false). -/
def archivedPublicRepo : Repository :=
  { archivedPrivateRepo with private_ := AttrValue.boolVal false }

/-- A concrete private repository that is not archived. -/
def privateNonArchivedRepo : Repository :=
  { archivedPrivateRepo with archived := AttrValue.boolVal false }

/-- C1 counterexample: the claim as stated fails.  The repository
`archivedPrivateRepo` is archived, the field `secret_scanning` is not in the
archive-frozen set, yet `include_field_for_diff_computation` returns false
for it (because the repository is also private), so on archived repositories
the excluded fields are not exactly the archive-frozen set. -/
theorem archived_masking_counterexample :
    archivedPrivateRepo.archived = AttrValue.boolVal true ∧
    ("secret_scanning" ∈ Repository.unavailable_fields_in_archived_repos → False) ∧
    "secret_scanning" ∈ Repository.fieldNames ∧
    archivedPrivateRepo.include_field_for_diff_computation "secret_scanning" = false := by
  refine ⟨rfl, by decide, by decide, by decide⟩

/-- C1 (amended): for every archived repository,
`include_field_for_diff_computation` returns false exactly for the fields in
the archive-frozen set, plus the field `secret_scanning` when the repository
is additionally private, and returns true for every other field. -/
theorem archived_masking (repo : Repository)
    (harch : repo.archived = AttrValue.boolVal true)
    (f : String) (_hf : f ∈ Repository.fieldNames) :
    repo.include_field_for_diff_computation f = false ↔
      (f ∈ Repository.unavailable_fields_in_archived_repos ∨
        (f = "secret_scanning" ∧ repo.private_ = AttrValue.boolVal true)) := by
  unfold Repository.include_field_for_diff_computation
  rw [harch]
  by_cases h1 : f = "secret_scanning" ∧ repo.private_ = AttrValue.boolVal true
  · simp only [h1, if_pos, if_true]
    simp [h1]
  · rw [if_neg h1, if_pos rfl]
    by_cases h2 : f ∈ Repository.unavailable_fields_in_archived_repos
    · simp [h2]
    · simp [h2, h1]

/-- C1 witness: the amended theorem applied at the archived public
repository and the field `delete_branch_on_merge`. -/
theorem archived_masking_witness :
    archivedPublicRepo.include_field_for_diff_computation "delete_branch_on_merge" = false ↔
      ("delete_branch_on_merge" ∈ Repository.unavailable_fields_in_archived_repos ∨
        ("delete_branch_on_merge" = "secret_scanning" ∧
          archivedPublicRepo.private_ = AttrValue.boolVal true)) :=
  archived_masking archivedPublicRepo rfl "delete_branch_on_merge" (by decide)

/-- C2: evaluating `include_field_for_diff_computation` at the failing
input.  For a private, non-archived repository the field `secret_scanning`
is excluded from diff computation but `secret_scanning_push_protection` is
not, even though the code comment states that private repositories do not
support security analysis (which covers both attributes and matches the
specification's `secret_scanning*`). -/
theorem private_repo_push_protection_not_excluded :
    privateNonArchivedRepo.private_ = AttrValue.boolVal true ∧
    privateNonArchivedRepo.include_field_for_diff_computation "secret_scanning" = false ∧
    privateNonArchivedRepo.include_field_for_diff_computation
      "secret_scanning_push_protection" = true := by
  refine ⟨rfl, by decide, by decide⟩

/-- Embedding of the pydantic model `PullRequest` from
src/otterdog/webapp/webhook/github_models.py.  The structured reference
fields `user`, `author_association`, `head` and `base` are omitted as no
embedded operation reads them; the timestamp fields `created_at`,
`updated_at`, `closed_at` and `merged_at`, which
src/otterdog/webapp/db/service.py reads from this model, are included. -/
structure PullRequest where
  id : Int
  node_id : String
  number : Int
  state : String
  locked : Bool
  title : String
  body : Option String
  draft : Bool
  merged : Option Bool
  merge_commit_sha : Option String
  created_at : String
  updated_at : String
  closed_at : Option String
  merged_at : Option String
deriving DecidableEq, Repr

/-- `PullRequest.get_pr_status` from
src/otterdog/webapp/webhook/github_models.py; the `RuntimeError` raised on
an unexpected state is embedded as `Except.error`. -/
def PullRequest.get_pr_status (self : PullRequest) : Except String String :=
  if self.state = "open" then
    Except.ok self.state
  else if self.state = "closed" then
    if self.merged = some true then
      Except.ok "merged"
    else
      Except.ok "closed"
  else
    Except.error ("unexpected state " ++ self.state)

/-- C3: `get_pr_status` is a total function realising exactly the mapping
open to OPEN, closed-and-merged to MERGED, closed-and-not-merged to CLOSED,
and raising on every other state; being a function, it is deterministic. -/
theorem get_pr_status_mapping (pr : PullRequest) :
    (pr.state = "open" → pr.get_pr_status = Except.ok "open") ∧
    (pr.state = "closed" → pr.merged = some true →
      pr.get_pr_status = Except.ok "merged") ∧
    (pr.state = "closed" → pr.merged ≠ some true →
      pr.get_pr_status = Except.ok "closed") ∧
    (pr.state ≠ "open" → pr.state ≠ "closed" →
      ∃ msg, pr.get_pr_status = Except.error msg) := by
  unfold PullRequest.get_pr_status
  refine ⟨fun hopen => ?_, fun hclosed hm => ?_, fun hclosed hm => ?_,
    fun hno hnc => ?_⟩
  · simp [hopen]
  · have : pr.state ≠ "open" := by simp [hclosed]
    simp [this, hclosed, hm]
  · have : pr.state ≠ "open" := by simp [hclosed]
    simp [this, hclosed, hm]
  · exact ⟨"unexpected state " ++ pr.state, by simp [hno, hnc]⟩

/-- A concrete pull request in the open state. -/
def openPullRequest : PullRequest :=
  { id := 1
    node_id := "PR_node"
    number := 7
    state := "open"
    locked := false
    title := "update configuration"
    body := none
    draft := false
    merged := none
    merge_commit_sha := none
    created_at := "2024-01-01T00:00:00Z"
    updated_at := "2024-01-02T00:00:00Z"
    closed_at := none
    merged_at := none }

/-- A concrete pull request that was closed by merging. -/
def mergedPullRequest : PullRequest :=
  { openPullRequest with
    state := "closed"
    merged := some true
    closed_at := some "2024-01-03T00:00:00Z"
    merged_at := some "2024-01-03T00:00:00Z" }

/-- C3 witness: the mapping theorem applied to the concrete open pull
request yields the OPEN status. -/
theorem get_pr_status_mapping_witness :
    openPullRequest.get_pr_status = Except.ok "open" :=
  (get_pr_status_mapping openPullRequest).1 rfl

/-- Validation failure kind (`FailureType` in otterdog/models): ERROR blocks
apply, WARNING and INFO are surfaced only. -/
inductive FailureType where
  | ERROR : FailureType
  | WARNING : FailureType
  | INFO : FailureType
deriving DecidableEq, Repr

/-- A recorded change of one attribute: `Change(expected, current)` pairs as
stored in the `changes` map of a CHANGE live patch (`utils.Change`;
otterdog/utils.py is not under src/, the field layout follows the spec,
section 4.4). -/
structure Change where
  from_value : AttrValue
  to_value : AttrValue
deriving DecidableEq, Repr

/-- The `field -> Change` map of a CHANGE patch, embedded as an association
list with unique keys (a Python dict preserving insertion order). -/
abbrev Changes := List (String × Change)

/-- Python `key in dict` on a changes map. -/
def Changes.containsKey (m : Changes) (k : String) : Bool :=
  m.any (fun p => p.1 = k)

/-- Python `dict[key]` lookup on a changes map. -/
def Changes.getKey (m : Changes) (k : String) : Option Change :=
  (m.find? (fun p => p.1 = k)).map Prod.snd

/-- Python `dict[key] = value` on a changes map: replace the binding in
place when the key is present, append it otherwise. -/
def Changes.setKey : Changes → String → Change → Changes
  | [], k, v => [(k, v)]
  | p :: rest, k, v =>
    if p.1 = k then (k, v) :: rest else p :: Changes.setKey rest k v

theorem Changes.getKey_setKey (m : Changes) (k : String) (v : Change) :
    Changes.getKey (Changes.setKey m k v) k = some v := by
  induction m with
  | nil => simp [Changes.setKey, Changes.getKey, List.find?]
  | cons p rest ih =>
    by_cases h : p.1 = k
    · simp [Changes.setKey, Changes.getKey, h, List.find?]
    · simpa [Changes.setKey, Changes.getKey, h, List.find?] using ih

theorem Changes.setKey_ne_nil (m : Changes) (k : String) (v : Change) :
    Changes.setKey m k v ≠ [] := by
  cases m with
  | nil => simp [Changes.setKey]
  | cons p rest =>
    by_cases h : p.1 = k <;> simp [Changes.setKey, h]

/-- Organization-level workflow settings; only the attributes read by
`RepositoryWorkflowSettings.validate` are represented (the file defining the
organization-level variant is not under src/; the attribute names are taken
from the validation code that reads them). -/
structure OrgWorkflowSettings where
  enabled_repositories : AttrValue
  default_workflow_permissions : AttrValue
deriving DecidableEq, Repr

/-- Embedding of the dataclass `RepositoryWorkflowSettings` from
src/otterdog/models/repo_workflow_settings.py.  The base class
`WorkflowSettings` (otterdog/models/workflow_settings.py is not under src/)
contributes a shared attribute bundle; of it, only the attributes used by
the embedded operations (`allowed_actions`,
`default_workflow_permissions`) are represented next to the subclass field
`enabled`. -/
structure RepositoryWorkflowSettings where
  enabled : AttrValue
  allowed_actions : AttrValue
  default_workflow_permissions : AttrValue
deriving DecidableEq, Repr

/-- The subclass part of `RepositoryWorkflowSettings.validate` from
src/otterdog/models/repo_workflow_settings.py.  The validation context is
embedded as the list of accumulated failures; `super().validate` (not under
src/) contributes the abstract prefix `superFailures`, and
`self.get_model_header(parent_object)` is abstracted into `header`. -/
def RepositoryWorkflowSettings.validate (self : RepositoryWorkflowSettings)
    (org_workflow_settings : OrgWorkflowSettings)
    (superFailures : List (FailureType × String)) (header : String) :
    List (FailureType × String) :=
  superFailures ++
    (if is_set_and_valid self.enabled ∧ self.enabled = AttrValue.boolVal true then
      (if org_workflow_settings.enabled_repositories = AttrValue.strVal "none" ∧
          self.enabled = AttrValue.boolVal true then
        [(FailureType.ERROR,
          header ++ " has enabled workflows, while on organization level it " ++
            "disabled for all repositories.")]
      else []) ++
      (if org_workflow_settings.default_workflow_permissions =
            AttrValue.strVal "read" ∧
          self.default_workflow_permissions = AttrValue.strVal "write" then
        [(FailureType.ERROR,
          header ++ " has default_workflow_permissions of value write, " ++
            "while on organization level it is restricted to read.")]
      else [])
    else [])

/-- C8: for repository workflow settings with `enabled` set to true, the
validator adds an ERROR failure when the organization-level settings have
`enabled_repositories` equal to none, and adds an ERROR failure when the
repository requests `default_workflow_permissions` write while the
organization restricts them to read. -/
theorem repo_workflow_validate_rejects_escalation
    (self : RepositoryWorkflowSettings) (org : OrgWorkflowSettings)
    (superFailures : List (FailureType × String)) (header : String)
    (hen : self.enabled = AttrValue.boolVal true) :
    (org.enabled_repositories = AttrValue.strVal "none" →
      ∃ msg, (FailureType.ERROR, msg) ∈
        self.validate org superFailures header) ∧
    (org.default_workflow_permissions = AttrValue.strVal "read" →
      self.default_workflow_permissions = AttrValue.strVal "write" →
      ∃ msg, (FailureType.ERROR, msg) ∈
        self.validate org superFailures header) := by
  have hvalid : is_set_and_valid self.enabled = true := by
    rw [hen]; rfl
  constructor
  · intro hnone
    refine ⟨header ++ " has enabled workflows, while on organization level it " ++
      "disabled for all repositories.", ?_⟩
    unfold RepositoryWorkflowSettings.validate
    rw [if_pos ⟨by simp [hvalid], hen⟩]
    refine List.mem_append_right _ (List.mem_append_left _ ?_)
    rw [if_pos ⟨hnone, hen⟩]
    exact List.mem_singleton_self _
  · intro hread hwrite
    refine ⟨header ++ " has default_workflow_permissions of value write, " ++
      "while on organization level it is restricted to read.", ?_⟩
    unfold RepositoryWorkflowSettings.validate
    rw [if_pos ⟨by simp [hvalid], hen⟩]
    refine List.mem_append_right _ (List.mem_append_right _ ?_)
    rw [if_pos ⟨hread, hwrite⟩]
    exact List.mem_singleton_self _

/-- Concrete repository workflow settings that are more permissive than the
organization allows on both counts. -/
def escalatingRepoWorkflowSettings : RepositoryWorkflowSettings :=
  { enabled := AttrValue.boolVal true
    allowed_actions := AttrValue.strVal "all"
    default_workflow_permissions := AttrValue.strVal "write" }

/-- Concrete restrictive organization-level workflow settings. -/
def restrictiveOrgWorkflowSettings : OrgWorkflowSettings :=
  { enabled_repositories := AttrValue.strVal "none"
    default_workflow_permissions := AttrValue.strVal "read" }

/-- C8 witness: both escalations are rejected with an ERROR failure on
concrete inputs. -/
theorem repo_workflow_validate_rejects_escalation_witness :
    (∃ msg, (FailureType.ERROR, msg) ∈
      escalatingRepoWorkflowSettings.validate restrictiveOrgWorkflowSettings
        [] "repo_workflow_settings[repo=test-repo]") ∧
    (∃ msg, (FailureType.ERROR, msg) ∈
      escalatingRepoWorkflowSettings.validate restrictiveOrgWorkflowSettings
        [] "repo_workflow_settings[repo=test-repo]") := by
  have h := repo_workflow_validate_rejects_escalation
    escalatingRepoWorkflowSettings restrictiveOrgWorkflowSettings
    [] "repo_workflow_settings[repo=test-repo]" rfl
  exact ⟨h.1 rfl, h.2 rfl rfl⟩

/-- The kind of a live patch. -/
inductive LivePatchType where
  | add : LivePatchType
  | change : LivePatchType
  | remove : LivePatchType
deriving DecidableEq, Repr

/-- Modelled from the spec: the `LivePatch` record of section 4.4
(otterdog/models/__init__.py defining it is not under src/), instantiated
for the repository workflow settings entity; the bound apply function and
parent object are not represented. -/
structure WorkflowSettingsLivePatch where
  patch_type : LivePatchType
  expected_object : Option RepositoryWorkflowSettings
  current_object : Option RepositoryWorkflowSettings
  changes : Option Changes
  forced_update : Bool
deriving DecidableEq, Repr

/-- `LivePatch.of_addition` specialised to workflow settings. -/
def WorkflowSettingsLivePatch.of_addition
    (expected : RepositoryWorkflowSettings) : WorkflowSettingsLivePatch :=
  { patch_type := LivePatchType.add
    expected_object := some expected
    current_object := none
    changes := none
    forced_update := false }

/-- `LivePatch.of_changes` specialised to workflow settings (the source
passes `False` for `forced_update` here). -/
def WorkflowSettingsLivePatch.of_changes
    (expected current : RepositoryWorkflowSettings) (changes : Changes)
    (forced_update : Bool) : WorkflowSettingsLivePatch :=
  { patch_type := LivePatchType.change
    expected_object := some expected
    current_object := some current
    changes := some changes
    forced_update := forced_update }

/-- `RepositoryWorkflowSettings.generate_live_patch` from
src/otterdog/models/repo_workflow_settings.py.  `get_difference_from`
(defined on the model base class, not under src/) is passed in as a
function; the handler callback is embedded by returning the list of emitted
patches. -/
def RepositoryWorkflowSettings.generate_live_patch
    (expected : RepositoryWorkflowSettings)
    (current : Option RepositoryWorkflowSettings)
    (get_difference_from :
      RepositoryWorkflowSettings → RepositoryWorkflowSettings → Changes) :
    List WorkflowSettingsLivePatch :=
  match current with
  | none => [WorkflowSettingsLivePatch.of_addition expected]
  | some current_object =>
    let modified_workflow_settings := get_difference_from expected current_object
    let modified_workflow_settings :=
      if Changes.containsKey modified_workflow_settings "allowed_actions" then
        Changes.setKey modified_workflow_settings "enabled"
          { from_value := expected.enabled, to_value := expected.enabled }
      else
        modified_workflow_settings
    if 0 < modified_workflow_settings.length then
      [WorkflowSettingsLivePatch.of_changes expected current_object
        modified_workflow_settings false]
    else
      []

/-- C4: on a CHANGE of repository workflow settings, whenever
`allowed_actions` appears in the computed difference the emitted patch binds
`enabled` to a change carrying the expected value on both sides (even when
`enabled` itself did not differ), and when the computed difference is empty
no patch is emitted. -/
theorem workflow_settings_change_injects_enabled
    (expected current : RepositoryWorkflowSettings)
    (get_difference_from :
      RepositoryWorkflowSettings → RepositoryWorkflowSettings → Changes) :
    (Changes.containsKey (get_difference_from expected current)
        "allowed_actions" = true →
      ∃ p, RepositoryWorkflowSettings.generate_live_patch expected
          (some current) get_difference_from = [p] ∧
        p.patch_type = LivePatchType.change ∧
        ∃ m, p.changes = some m ∧
          Changes.getKey m "enabled" =
            some { from_value := expected.enabled,
                   to_value := expected.enabled }) ∧
    (get_difference_from expected current = [] →
      RepositoryWorkflowSettings.generate_live_patch expected
        (some current) get_difference_from = []) := by
  constructor
  · intro hcontains
    have hne := Changes.setKey_ne_nil (get_difference_from expected current)
      "enabled" { from_value := expected.enabled, to_value := expected.enabled }
    unfold RepositoryWorkflowSettings.generate_live_patch
    simp only [hcontains, if_true]
    rw [if_pos (List.length_pos.mpr hne)]
    exact ⟨_, rfl, rfl, _, rfl, Changes.getKey_setKey _ _ _⟩
  · intro hempty
    unfold RepositoryWorkflowSettings.generate_live_patch
    simp [hempty, Changes.containsKey]

/-- A current workflow-settings object agreeing with the expected one on
`enabled` but not on `allowed_actions`. -/
def currentRepoWorkflowSettings : RepositoryWorkflowSettings :=
  { enabled := AttrValue.boolVal true
    allowed_actions := AttrValue.strVal "selected"
    default_workflow_permissions := AttrValue.strVal "write" }

/-- A difference map containing only `allowed_actions` (as produced when
`enabled` is unchanged between expected and current). -/
def allowedActionsOnlyDiff :
    RepositoryWorkflowSettings → RepositoryWorkflowSettings → Changes :=
  fun expected current =>
    [("allowed_actions", { from_value := expected.allowed_actions,
                           to_value := current.allowed_actions })]

/-- C4 witness: with a computed difference containing only
`allowed_actions`, the emitted CHANGE patch also binds `enabled`. -/
theorem workflow_settings_change_injects_enabled_witness :
    ∃ p, RepositoryWorkflowSettings.generate_live_patch
        escalatingRepoWorkflowSettings (some currentRepoWorkflowSettings)
        allowedActionsOnlyDiff = [p] ∧
      p.patch_type = LivePatchType.change ∧
      ∃ m, p.changes = some m ∧
        Changes.getKey m "enabled" =
          some { from_value := escalatingRepoWorkflowSettings.enabled,
                 to_value := escalatingRepoWorkflowSettings.enabled } :=
  (workflow_settings_change_injects_enabled escalatingRepoWorkflowSettings
    currentRepoWorkflowSettings allowedActionsOnlyDiff).1 (by decide)

/-- An HTTP request as issued by the REST requester: method, full URL,
serialized body and query parameters. -/
structure HttpRequest where
  method : String
  url : String
  data : Option String
  params : List (String × String)
deriving DecidableEq, Repr

/-- An HTTP response as observed by the REST requester; `url` is the URL of
the request that produced it (`response.request.url`) and `text` the raw
response body. -/
structure HttpResponse where
  status_code : Nat
  url : String
  text : String
deriving DecidableEq, Repr

/-- Modelled from the spec: the error taxonomy of the REST transport
(otterdog/providers/github/exception.py is not under src/).  Per the spec,
`BadCredentials` (401) is distinguished, and every other HTTP status of at
least 400 produces a forge error carrying status, URL and body.  The
response headers also passed by the source are not represented. -/
inductive GitHubError where
  | badCredentials : String → Nat → String → GitHubError
  | forgeError : String → Nat → String → GitHubError
deriving DecidableEq, Repr

/-- `RestClient._GH_API_URL_ROOT` from src/otterdog/providers/github/rest.py. -/
def GH_API_URL_ROOT : String := "https://api.github.com"

/-- `Requester._build_url` from src/otterdog/providers/github/rest.py. -/
def Requester.build_url (base_url url_path : String) : String :=
  base_url ++ url_path

/-- `Requester.request_raw` from src/otterdog/providers/github/rest.py.  The
HTTP session is embedded as a function from requests to responses; the body
performs exactly one session request, and the list of issued requests is
returned alongside the response so that the number of transport calls is
observable.  The assert restricting `method` to the five verbs and the
trace logging are not represented. -/
def Requester.request_raw (session : HttpRequest → HttpResponse)
    (base_url method url_path : String) (data : Option String)
    (params : List (String × String)) : HttpResponse × List HttpRequest :=
  let request : HttpRequest :=
    { method := method
      url := Requester.build_url base_url url_path
      data := data
      params := params }
  (session request, [request])

/-- `Requester._create_exception` from
src/otterdog/providers/github/rest.py: status 401 yields the distinguished
bad-credentials error, everything else the generic forge error. -/
def Requester.create_exception (response : HttpResponse) : GitHubError :=
  if response.status_code = 401 then
    GitHubError.badCredentials response.url response.status_code response.text
  else
    GitHubError.forgeError response.url response.status_code response.text

/-- `Requester._check_response` from src/otterdog/providers/github/rest.py:
raises for every status of at least 400, does nothing otherwise. -/
def Requester.check_response (response : HttpResponse) :
    Except GitHubError Unit :=
  if 400 ≤ response.status_code then
    Except.error (Requester.create_exception response)
  else
    Except.ok ()

/-- `Requester.request_json` from src/otterdog/providers/github/rest.py.
The `data` argument is taken already serialized (the source serializes its
dict with `json.dumps` before delegating), and `response.json()` is
embedded by the abstract parser `parse` applied to the response body. -/
def Requester.request_json {β : Type} (parse : String → β)
    (session : HttpRequest → HttpResponse)
    (base_url method url_path : String) (data : Option String)
    (params : List (String × String)) :
    Except GitHubError β × List HttpRequest :=
  let raw := Requester.request_raw session base_url method url_path data params
  match Requester.check_response raw.1 with
  | Except.error e => (Except.error e, raw.2)
  | Except.ok _ => (Except.ok (parse raw.1.text), raw.2)

/-- C6: response checking distinguishes 401 as bad credentials, turns every
other status of at least 400 into a forge error carrying status, URL and
body, and accepts every status below 400, in which case `request_json`
returns the parsed response body. -/
theorem check_response_classification (response : HttpResponse) :
    (response.status_code = 401 →
      Requester.check_response response =
        Except.error
          (GitHubError.badCredentials response.url 401 response.text)) ∧
    (400 ≤ response.status_code → response.status_code ≠ 401 →
      Requester.check_response response =
        Except.error
          (GitHubError.forgeError response.url response.status_code
            response.text)) ∧
    (response.status_code < 400 →
      Requester.check_response response = Except.ok () ∧
      ∀ (β : Type) (parse : String → β)
        (session : HttpRequest → HttpResponse)
        (base_url method url_path : String) (data : Option String)
        (params : List (String × String)),
        session { method := method, url := Requester.build_url base_url url_path,
                  data := data, params := params } = response →
        Requester.request_json parse session base_url method url_path data
            params =
          (Except.ok (parse response.text),
           [{ method := method, url := Requester.build_url base_url url_path,
              data := data, params := params }])) := by
  refine ⟨fun h401 => ?_, fun hge hne => ?_, fun hlt => ⟨?_, ?_⟩⟩
  · unfold Requester.check_response Requester.create_exception
    rw [if_pos (by rw [h401]; exact Nat.le_of_lt (by norm_num)), if_pos h401,
      h401]
  · unfold Requester.check_response Requester.create_exception
    rw [if_pos hge, if_neg hne]
  · unfold Requester.check_response
    rw [if_neg (Nat.not_le.mpr hlt)]
  · intro β parse session base_url method url_path data params hsession
    unfold Requester.request_json Requester.request_raw
    simp only [hsession]
    have hok : Requester.check_response response = Except.ok () := by
      unfold Requester.check_response
      rw [if_neg (Nat.not_le.mpr hlt)]
    rw [hok]

/-- A session whose server answers every request with status 200 and an
empty JSON list body. -/
def okSession : HttpRequest → HttpResponse :=
  fun request =>
    { status_code := 200, url := request.url, text := "[]" }

/-- C6 witness: the classification theorem applied to a concrete 401
response, a concrete 404 response and a concrete 200 response served by
`okSession`. -/
theorem check_response_classification_witness :
    Requester.check_response
        { status_code := 401, url := "https://api.github.com/user",
          text := "Bad credentials" } =
      Except.error
        (GitHubError.badCredentials "https://api.github.com/user" 401
          "Bad credentials") ∧
    Requester.check_response
        { status_code := 404, url := "https://api.github.com/user",
          text := "Not Found" } =
      Except.error
        (GitHubError.forgeError "https://api.github.com/user" 404
          "Not Found") ∧
    Requester.request_json id okSession GH_API_URL_ROOT "GET" "/user" none
        [] =
      (Except.ok "[]",
       [{ method := "GET", url := Requester.build_url GH_API_URL_ROOT "/user",
          data := none, params := [] }]) := by
  refine ⟨(check_response_classification _).1 rfl,
    (check_response_classification _).2.1 (by norm_num) (by norm_num), ?_⟩
  exact ((check_response_classification
      (okSession { method := "GET",
                   url := Requester.build_url GH_API_URL_ROOT "/user",
                   data := none, params := [] })).2.2 (by norm_num [okSession])).2
    String id okSession GH_API_URL_ROOT "GET" "/user" none [] rfl

/-- A session whose server answers every request with a transient 503. -/
def overloadedSession : HttpRequest → HttpResponse :=
  fun request =>
    { status_code := 503, url := request.url, text := "Service Unavailable" }

/-- C5 counterexample: on a transient 503 response the requester surfaces a
forge error after having issued exactly one transport request; no retry
takes place, refuting the claimed exponential backoff with up to five
attempts. -/
theorem rest_retry_counterexample :
    Requester.request_json id overloadedSession GH_API_URL_ROOT "GET"
        "/orgs/test/repos" none [] =
      (Except.error
        (GitHubError.forgeError
          (Requester.build_url GH_API_URL_ROOT "/orgs/test/repos") 503
          "Service Unavailable"),
       [{ method := "GET",
          url := Requester.build_url GH_API_URL_ROOT "/orgs/test/repos",
          data := none, params := [] }]) ∧
    (Requester.request_json id overloadedSession GH_API_URL_ROOT "GET"
        "/orgs/test/repos" none []).2.length = 1 :=
  ⟨rfl, rfl⟩

/-- C5 (amended): the requester performs no retry at all: every call issues
exactly one transport request, and a response with status at least 500 (in
particular a transient 5xx or secondary-rate-limit response) surfaces as an
error after that single attempt. -/
theorem rest_single_attempt {β : Type} (parse : String → β)
    (session : HttpRequest → HttpResponse) (base_url method url_path : String)
    (data : Option String) (params : List (String × String)) :
    (Requester.request_json parse session base_url method url_path data
      params).2.length = 1 ∧
    (500 ≤ (session { method := method,
                      url := Requester.build_url base_url url_path,
                      data := data,
                      params := params }).status_code →
      ∃ e, (Requester.request_json parse session base_url method url_path
        data params).1 = Except.error e) := by
  constructor
  · unfold Requester.request_json Requester.request_raw
    cases hc : Requester.check_response
        (session { method := method,
                   url := Requester.build_url base_url url_path,
                   data := data,
                   params := params }) <;> simp [hc]
  · intro h500
    have hge : 400 ≤ (session { method := method,
                                url := Requester.build_url base_url url_path,
                                data := data,
                                params := params }).status_code :=
      Nat.le_trans (by norm_num) h500
    unfold Requester.request_json Requester.request_raw
    simp only [Requester.check_response, if_pos hge]
    exact ⟨_, rfl⟩

/-- C5 amended-claim witness: the single-attempt theorem applied to the
concrete overloaded session. -/
theorem rest_single_attempt_witness :
    (Requester.request_json id overloadedSession GH_API_URL_ROOT "GET"
      "/orgs/test/repos" none []).2.length = 1 ∧
    ∃ e, (Requester.request_json id overloadedSession GH_API_URL_ROOT "GET"
      "/orgs/test/repos" none []).1 = Except.error e := by
  have h := rest_single_attempt id overloadedSession GH_API_URL_ROOT "GET"
    "/orgs/test/repos" none []
  exact ⟨h.1, h.2 (by norm_num [overloadedSession])⟩

/-- Python `dict.update` on string-keyed dictionaries embedded as
association lists with unique keys: keys already present take the
overriding value in place, new keys are appended in order. -/
def dictUpdate (base overrides : List (String × String)) :
    List (String × String) :=
  base.map (fun p =>
    match overrides.lookup p.1 with
    | some v => (p.1, v)
    | none => p) ++
  overrides.filter (fun p => (base.lookup p.1).isNone)

/-- `Requester.request_paged_json` from
src/otterdog/providers/github/rest.py, with the page number of the while
loop made an explicit argument.  The loop is embedded with fuel: `none`
means the fuel ran out before an empty page was received.  Each iteration
queries `per_page=100` with the current page number (caller-supplied params
merged over them as with Python `dict.update`), appends the received items,
and moves to the next page; the first empty page stops the loop, and an
error from `request_json` propagates out. -/
def Requester.request_paged_json_go {β : Type} (parse : String → List β)
    (session : HttpRequest → HttpResponse)
    (base_url method url_path : String) (data : Option String)
    (params : List (String × String)) (current_page : Nat) (fuel : Nat) :
    Option (Except GitHubError (List β) × List HttpRequest) :=
  match fuel with
  | 0 => none
  | Nat.succ fuel =>
    let query_params :=
      dictUpdate [("per_page", "100"), ("page", toString current_page)] params
    match Requester.request_json parse session base_url method url_path data
        query_params with
    | (Except.error e, log) => some (Except.error e, log)
    | (Except.ok response, log) =>
      if response.length = 0 then
        some (Except.ok [], log)
      else
        match Requester.request_paged_json_go parse session base_url method
            url_path data params (current_page + 1) fuel with
        | none => none
        | some (Except.error e, log2) => some (Except.error e, log ++ log2)
        | some (Except.ok rest, log2) =>
          some (Except.ok (response ++ rest), log ++ log2)

/-- Entry point of the paged request: the loop starts at page 1. -/
def Requester.request_paged_json {β : Type} (parse : String → List β)
    (session : HttpRequest → HttpResponse)
    (base_url method url_path : String) (data : Option String)
    (params : List (String × String)) (fuel : Nat) :
    Option (Except GitHubError (List β) × List HttpRequest) :=
  Requester.request_paged_json_go parse session base_url method url_path data
    params 1 fuel

/-- The request issued for one page of a paged query, for caller params
that override neither `per_page` nor `page`. -/
def Requester.pageRequest (base_url method url_path : String)
    (data : Option String) (params : List (String × String)) (page : Nat) :
    HttpRequest :=
  { method := method
    url := Requester.build_url base_url url_path
    data := data
    params := [("per_page", "100"), ("page", toString page)] ++ params }

/-- The items served for one page of a paged query. -/
def Requester.pageItems {β : Type} (parse : String → List β)
    (session : HttpRequest → HttpResponse)
    (base_url method url_path : String) (data : Option String)
    (params : List (String × String)) (page : Nat) : List β :=
  parse ((session (Requester.pageRequest base_url method url_path data params
    page)).text)

theorem lookup_none_of_fresh {β : Type} (k : String)
    (l : List (String × β)) (h : ∀ q ∈ l, q.1 ≠ k) :
    List.lookup k l = none := by
  induction l with
  | nil => rfl
  | cons q rest ih =>
    have hq : (k == q.1) = false :=
      beq_false_of_ne (Ne.symm (h q (List.mem_cons_self q rest)))
    cases q with
    | mk a b =>
      simp only [List.lookup, hq]
      exact ih (fun q hm => h q (List.mem_cons_of_mem _ hm))

theorem dictUpdate_fresh (s : String) (params : List (String × String))
    (hfresh : ∀ q ∈ params, q.1 ≠ "per_page" ∧ q.1 ≠ "page") :
    dictUpdate [("per_page", "100"), ("page", s)] params =
      [("per_page", "100"), ("page", s)] ++ params := by
  have h1 : List.lookup "per_page" params = none :=
    lookup_none_of_fresh _ _ (fun q hm => (hfresh q hm).1)
  have h2 : List.lookup "page" params = none :=
    lookup_none_of_fresh _ _ (fun q hm => (hfresh q hm).2)
  have h3 : params.filter
      (fun p =>
        (List.lookup p.1 [("per_page", "100"), ("page", s)]).isNone) =
      params := by
    apply List.filter_eq_self.mpr
    intro q hm
    simp [List.lookup, beq_false_of_ne (hfresh q hm).1,
      beq_false_of_ne (hfresh q hm).2]
  unfold dictUpdate
  simp only [List.map_cons, List.map_nil, h1, h2, h3]

theorem request_json_page {β : Type} (parse : String → List β)
    (session : HttpRequest → HttpResponse)
    (base_url method url_path : String) (data : Option String)
    (params : List (String × String))
    (hfresh : ∀ q ∈ params, q.1 ≠ "per_page" ∧ q.1 ≠ "page")
    (hstatus : ∀ r, (session r).status_code < 400) (page : Nat) :
    Requester.request_json parse session base_url method url_path data
        (dictUpdate [("per_page", "100"), ("page", toString page)] params) =
      (Except.ok (Requester.pageItems parse session base_url method url_path
        data params page),
       [Requester.pageRequest base_url method url_path data params page]) := by
  rw [dictUpdate_fresh (toString page) params hfresh]
  have hr : ({ method := method, url := Requester.build_url base_url url_path,
               data := data,
               params := [("per_page", "100"), ("page", toString page)] ++
                 params } : HttpRequest) =
      Requester.pageRequest base_url method url_path data params page := rfl
  unfold Requester.request_json Requester.request_raw
  simp only [hr]
  have hok : Requester.check_response
      (session (Requester.pageRequest base_url method url_path data params
        page)) = Except.ok () := by
    unfold Requester.check_response
    rw [if_neg (Nat.not_le.mpr (hstatus _))]
  rw [hok]
  rfl

theorem request_paged_json_go_spec {β : Type} (parse : String → List β)
    (session : HttpRequest → HttpResponse)
    (base_url method url_path : String) (data : Option String)
    (params : List (String × String))
    (hfresh : ∀ q ∈ params, q.1 ≠ "per_page" ∧ q.1 ≠ "page")
    (hstatus : ∀ r, (session r).status_code < 400) :
    ∀ (n start fuel : Nat), n < fuel →
      (∀ i, i < n → Requester.pageItems parse session base_url method
        url_path data params (start + i) ≠ []) →
      Requester.pageItems parse session base_url method url_path data params
        (start + n) = [] →
      Requester.request_paged_json_go parse session base_url method url_path
          data params start fuel =
        some (Except.ok ((List.range' start n).flatMap
            (Requester.pageItems parse session base_url method url_path data
              params)),
          (List.range' start (n + 1)).map
            (Requester.pageRequest base_url method url_path data params)) := by
  intro n
  induction n with
  | zero =>
    intro start fuel hfuel hnon hempty
    obtain ⟨fuel, rfl⟩ : ∃ f, fuel = f + 1 := ⟨fuel - 1, by omega⟩
    rw [Nat.add_zero] at hempty
    unfold Requester.request_paged_json_go
    simp only []
    rw [request_json_page parse session base_url method url_path data params
      hfresh hstatus start]
    simp [hempty, List.range']
  | succ n ih =>
    intro start fuel hfuel hnon hempty
    obtain ⟨fuel, rfl⟩ : ∃ f, fuel = f + 1 := ⟨fuel - 1, by omega⟩
    have h0 : Requester.pageItems parse session base_url method url_path data
        params start ≠ [] := by
      have := hnon 0 (Nat.succ_pos n)
      rwa [Nat.add_zero] at this
    have hrec := ih (start + 1) fuel (by omega)
      (fun i hi => by
        have := hnon (i + 1) (Nat.succ_lt_succ hi)
        rwa [show start + (i + 1) = start + 1 + i by omega] at this)
      (by rwa [show start + 1 + n = start + (n + 1) by omega])
    unfold Requester.request_paged_json_go
    simp only []
    rw [request_json_page parse session base_url method url_path data params
      hfresh hstatus start]
    simp only []
    rw [if_neg (by simpa [List.length_eq_zero] using h0), hrec]
    simp [List.range'_succ]

/-- C7: a paged request fetches successive pages with `per_page=100`
starting at page 1 and incrementing by one, stops at the first empty page
`K`, terminates whenever the fuel covers that page, and returns the
concatenation of the items of the non-empty pages `1, ..., K - 1` in the
order received; the returned request log exhibits the queried pages. -/
theorem request_paged_json_spec {β : Type} (parse : String → List β)
    (session : HttpRequest → HttpResponse)
    (base_url method url_path : String) (data : Option String)
    (params : List (String × String)) (K fuel : Nat)
    (hfresh : ∀ q ∈ params, q.1 ≠ "per_page" ∧ q.1 ≠ "page")
    (hstatus : ∀ r, (session r).status_code < 400)
    (hK : 1 ≤ K)
    (hempty : Requester.pageItems parse session base_url method url_path data
      params K = [])
    (hnon : ∀ p, p < K → 1 ≤ p → Requester.pageItems parse session base_url
      method url_path data params p ≠ [])
    (hfuel : K ≤ fuel) :
    Requester.request_paged_json parse session base_url method url_path data
        params fuel =
      some (Except.ok ((List.range' 1 (K - 1)).flatMap
          (Requester.pageItems parse session base_url method url_path data
            params)),
        (List.range' 1 K).map
          (Requester.pageRequest base_url method url_path data params)) := by
  unfold Requester.request_paged_json
  have h := request_paged_json_go_spec parse session base_url method url_path
    data params hfresh hstatus (K - 1) 1 fuel (by omega)
    (fun i hi => hnon (1 + i) (by omega) (by omega))
    (by rwa [show 1 + (K - 1) = K by omega])
  rwa [show K - 1 + 1 = K by omega] at h

/-- The body served for each page in the demonstration session: two
non-empty pages, then empty pages. -/
def demoPageBody : Option String → String
  | some "1" => "repo-a"
  | some "2" => "repo-b"
  | _ => ""

/-- A session serving a two-page repository listing with status 200. -/
def demoSession : HttpRequest → HttpResponse :=
  fun request =>
    { status_code := 200
      url := request.url
      text := demoPageBody (List.lookup "page" request.params) }

/-- A parser turning a non-empty body into a one-item list. -/
def demoParse : String → List String :=
  fun body => if body = "" then [] else [body]

/-- C7 witness: the paged-request theorem applied to the concrete two-page
session, with first empty page 3 and fuel 3. -/
theorem request_paged_json_spec_witness :
    Requester.request_paged_json demoParse demoSession GH_API_URL_ROOT "GET"
        "/orgs/test/repos" none [("type", "all")] 3 =
      some (Except.ok ((List.range' 1 2).flatMap
          (Requester.pageItems demoParse demoSession GH_API_URL_ROOT "GET"
            "/orgs/test/repos" none [("type", "all")])),
        (List.range' 1 3).map
          (Requester.pageRequest GH_API_URL_ROOT "GET" "/orgs/test/repos"
            none [("type", "all")])) :=
  request_paged_json_spec demoParse demoSession GH_API_URL_ROOT "GET"
    "/orgs/test/repos" none [("type", "all")] 3 3
    (by decide)
    (fun r => by norm_num [demoSession])
    (by norm_num)
    (by decide)
    (by decide)
    (by norm_num)

/-- Modelled from the spec: the stored pull-request status enum
(otterdog/webapp/db/models.py is not under src/); the spec maps open to
OPEN, closed-and-merged to MERGED and closed to CLOSED. -/
inductive PullRequestStatus where
  | OPEN : PullRequestStatus
  | CLOSED : PullRequestStatus
  | MERGED : PullRequestStatus
deriving DecidableEq, Repr

/-- Modelled from the spec: the apply status of a pull request
(otterdog/webapp/db/models.py is not under src/); the spec names COMPLETED
and FAILED, with a pristine state before any apply attempt. -/
inductive ApplyStatus where
  | NOT_APPLIED : ApplyStatus
  | COMPLETED : ApplyStatus
  | FAILED : ApplyStatus
deriving DecidableEq, Repr

/-- Modelled from the spec: the enum lookup
`PullRequestStatus[pull_request.get_pr_status()]` (the enum lives in
otterdog/webapp/db/models.py, not under src/): each status string produced
by `get_pr_status` names a member; an unknown name is a key error. -/
def PullRequestStatus.fromName (s : String) :
    Except String PullRequestStatus :=
  if s = "open" then Except.ok PullRequestStatus.OPEN
  else if s = "closed" then Except.ok PullRequestStatus.CLOSED
  else if s = "merged" then Except.ok PullRequestStatus.MERGED
  else Except.error ("KeyError " ++ s)

/-- The status stored for a webhook pull request: `get_pr_status` followed
by the enum lookup. -/
def pullRequestStatusOf (pr : PullRequest) :
    Except String PullRequestStatus :=
  match pr.get_pr_status with
  | Except.error e => Except.error e
  | Except.ok s => PullRequestStatus.fromName s

/-- Modelled from the spec: `PullRequestModel`
(otterdog/webapp/db/models.py is not under src/), restricted to the fields
read or written by `update_or_create_pull_request`; the creation defaults
leave `valid`, `in_sync` and `requires_manual_apply` absent and the apply
status pristine. -/
structure PullRequestModel where
  org_id : String
  repo_name : String
  pull_request : Int
  draft : Bool
  status : PullRequestStatus
  created_at : String
  updated_at : String
  closed_at : Option String
  merged_at : Option String
  valid : Option Bool
  in_sync : Option Bool
  requires_manual_apply : Option Bool
  apply_status : ApplyStatus
deriving DecidableEq, Repr

/-- `update_or_create_pull_request` from src/otterdog/webapp/db/service.py.
The database read `find_pull_request` is embedded as the `existing`
argument and the final save as the returned model; a failing status lookup
propagates as an error before any model is touched. -/
def update_or_create_pull_request (owner repo : String)
    (pull_request : PullRequest) (valid : Option Bool)
    (in_sync : Option Bool) (requires_manual_apply : Option Bool)
    (apply_status : Option ApplyStatus)
    (existing : Option PullRequestModel) : Except String PullRequestModel :=
  match pullRequestStatusOf pull_request with
  | Except.error e => Except.error e
  | Except.ok pull_request_status =>
    let pr_model : PullRequestModel :=
      match existing with
      | none =>
        { org_id := owner
          repo_name := repo
          pull_request := pull_request.number
          draft := pull_request.draft
          status := pull_request_status
          created_at := pull_request.created_at
          updated_at := pull_request.updated_at
          closed_at := pull_request.closed_at
          merged_at := pull_request.merged_at
          valid := none
          in_sync := none
          requires_manual_apply := none
          apply_status := ApplyStatus.NOT_APPLIED }
      | some m =>
        { m with
          draft := pull_request.draft
          status := pull_request_status
          created_at := pull_request.created_at
          updated_at := pull_request.updated_at
          closed_at := pull_request.closed_at
          merged_at := pull_request.merged_at }
    let pr_model :=
      match apply_status with
      | some v => { pr_model with apply_status := v }
      | none => pr_model
    let pr_model :=
      match valid with
      | some v => { pr_model with valid := some v }
      | none => pr_model
    let pr_model :=
      match in_sync with
      | some v => { pr_model with in_sync := some v }
      | none => pr_model
    let pr_model :=
      match requires_manual_apply with
      | some v => { pr_model with requires_manual_apply := some v }
      | none => pr_model
    Except.ok pr_model

/-- C9: updating an existing stored pull request leaves `valid`,
`in_sync`, `requires_manual_apply` and `apply_status` unchanged whenever
the corresponding optional argument is `none`, overwrites each of them
exactly when a value is passed, and always refreshes `draft`, `status`,
`created_at`, `updated_at`, `closed_at` and `merged_at` from the given
pull request. -/
theorem update_pull_request_frame (owner repo : String) (pr : PullRequest)
    (valid in_sync requires_manual_apply : Option Bool)
    (apply_status : Option ApplyStatus) (m result : PullRequestModel)
    (h : update_or_create_pull_request owner repo pr valid in_sync
      requires_manual_apply apply_status (some m) = Except.ok result) :
    (valid = none → result.valid = m.valid) ∧
    (∀ v, valid = some v → result.valid = some v) ∧
    (in_sync = none → result.in_sync = m.in_sync) ∧
    (∀ v, in_sync = some v → result.in_sync = some v) ∧
    (requires_manual_apply = none →
      result.requires_manual_apply = m.requires_manual_apply) ∧
    (∀ v, requires_manual_apply = some v →
      result.requires_manual_apply = some v) ∧
    (apply_status = none → result.apply_status = m.apply_status) ∧
    (∀ v, apply_status = some v → result.apply_status = v) ∧
    result.draft = pr.draft ∧
    pullRequestStatusOf pr = Except.ok result.status ∧
    result.created_at = pr.created_at ∧
    result.updated_at = pr.updated_at ∧
    result.closed_at = pr.closed_at ∧
    result.merged_at = pr.merged_at := by
  unfold update_or_create_pull_request at h
  cases hs : pullRequestStatusOf pr with
  | error e =>
    rw [hs] at h
    exact absurd h (by simp)
  | ok s =>
    rw [hs] at h
    cases valid <;> cases in_sync <;> cases requires_manual_apply <;>
        cases apply_status <;>
      · simp only [Except.ok.injEq] at h
        subst h
        simp [hs]

/-- A concrete stored pull-request model as created by an earlier
validation run. -/
def storedPullRequestModel : PullRequestModel :=
  { org_id := "eclipse"
    repo_name := "otterdog-configs"
    pull_request := 7
    draft := false
    status := PullRequestStatus.OPEN
    created_at := "2024-01-01T00:00:00Z"
    updated_at := "2024-01-01T01:00:00Z"
    closed_at := none
    merged_at := none
    valid := none
    in_sync := some false
    requires_manual_apply := some false
    apply_status := ApplyStatus.NOT_APPLIED }

/-- The model expected after updating `storedPullRequestModel` with the
merged pull request, `valid := some true` and a completed apply status. -/
def expectedUpdatedModel : PullRequestModel :=
  { storedPullRequestModel with
    draft := false
    status := PullRequestStatus.MERGED
    created_at := "2024-01-01T00:00:00Z"
    updated_at := "2024-01-02T00:00:00Z"
    closed_at := some "2024-01-03T00:00:00Z"
    merged_at := some "2024-01-03T00:00:00Z"
    valid := some true
    apply_status := ApplyStatus.COMPLETED }

/-- C9 witness: the frame theorem applied to the concrete stored model and
the concrete merged pull request, with `valid` and `apply_status` passed
and the other optional arguments left out. -/
theorem update_pull_request_frame_witness :
    expectedUpdatedModel.valid = some true ∧
    expectedUpdatedModel.in_sync = storedPullRequestModel.in_sync ∧
    expectedUpdatedModel.requires_manual_apply =
      storedPullRequestModel.requires_manual_apply ∧
    expectedUpdatedModel.apply_status = ApplyStatus.COMPLETED ∧
    pullRequestStatusOf mergedPullRequest =
      Except.ok expectedUpdatedModel.status := by
  have h := update_pull_request_frame "eclipse" "otterdog-configs"
    mergedPullRequest (some true) none none (some ApplyStatus.COMPLETED)
    storedPullRequestModel expectedUpdatedModel rfl
  obtain ⟨h1, h2, h3, h4, h5, h6, h7, h8, h9, h10, h11⟩ := h
  exact ⟨h2 true rfl, h3 rfl, h5 rfl, h8 ApplyStatus.COMPLETED rfl, h10⟩

/-- A repository file as returned by the content GET: its blob sha and its
base64-decoded content. -/
structure ContentFile where
  sha : String
  content : String
deriving DecidableEq, Repr

/-- The PUT request `update_content` issues: target path, commit message,
new content (the source transmits it base64-encoded; the encoding is
injective, the decoded text is recorded) and, when the file already
existed, its previous blob sha. -/
structure PutContentRequest where
  url : String
  message : String
  content : String
  sha : Option String
deriving DecidableEq, Repr

/-- `RestClient.update_content` from
src/otterdog/providers/github/rest.py.  The initial `get_content_object`
call is embedded as the `existing` argument (`none` when the GET raised
because no file is stored at the path); the return value is the PUT request
issued, or `none` when the content is unchanged and the update is
skipped. -/
def RestClient.update_content (org_id repo_name path : String)
    (existing : Option ContentFile) (content : String)
    (message : Option String) : Option PutContentRequest :=
  let old_sha := existing.map ContentFile.sha
  let old_content := existing.map ContentFile.content
  if old_content ≠ none ∧ old_content = some content then
    none
  else
    let push_message :=
      match message with
      | none => "Updating file " ++ path ++ " with otterdog."
      | some m => m
    some
      { url := "/repos/" ++ org_id ++ "/" ++ repo_name ++ "/contents/" ++ path
        message := push_message
        content := content
        sha := old_sha }

/-- C10: `update_content` issues no PUT when the new content equals the
stored content, and issues a PUT exactly when the file does not exist yet
(then without a sha) or the content differs (then carrying the previous
sha). -/
theorem update_content_skips_unchanged (org_id repo_name path : String)
    (existing : Option ContentFile) (content : String)
    (message : Option String) :
    (∀ f, existing = some f → f.content = content →
      RestClient.update_content org_id repo_name path existing content
        message = none) ∧
    (existing = none →
      ∃ req, RestClient.update_content org_id repo_name path existing content
          message = some req ∧
        req.sha = none ∧ req.content = content) ∧
    (∀ f, existing = some f → f.content ≠ content →
      ∃ req, RestClient.update_content org_id repo_name path existing content
          message = some req ∧
        req.sha = some f.sha ∧ req.content = content) := by
  refine ⟨fun f hf heq => ?_, fun hnone => ?_, fun f hf hne => ?_⟩
  · unfold RestClient.update_content
    rw [hf, if_pos]
    exact ⟨by simp, by simp [heq]⟩
  · unfold RestClient.update_content
    rw [hnone, if_neg (by simp)]
    exact ⟨_, rfl, rfl, rfl⟩
  · unfold RestClient.update_content
    rw [hf, if_neg (by simp [hne])]
    exact ⟨_, rfl, rfl, rfl⟩

/-- C10 witness: on a file whose stored content already matches, no PUT is
issued; on a missing file, a PUT without a sha is issued; on changed
content, a PUT carrying the previous sha is issued. -/
theorem update_content_skips_unchanged_witness :
    RestClient.update_content "eclipse" "otterdog-configs" "otterdog.json"
      (some { sha := "abc123", content := "config-v1" }) "config-v1" none =
      none ∧
    (∃ req, RestClient.update_content "eclipse" "otterdog-configs"
        "otterdog.json" none "config-v1" none = some req ∧
      req.sha = none ∧ req.content = "config-v1") ∧
    (∃ req, RestClient.update_content "eclipse" "otterdog-configs"
        "otterdog.json" (some { sha := "abc123", content := "config-v1" })
        "config-v2" none = some req ∧
      req.sha = some "abc123" ∧ req.content = "config-v2") := by
  have h := update_content_skips_unchanged "eclipse" "otterdog-configs"
    "otterdog.json" (some { sha := "abc123", content := "config-v1" })
    "config-v1" none
  have h2 := update_content_skips_unchanged "eclipse" "otterdog-configs"
    "otterdog.json" none "config-v1" none
  have h3 := update_content_skips_unchanged "eclipse" "otterdog-configs"
    "otterdog.json" (some { sha := "abc123", content := "config-v1" })
    "config-v2" none
  exact ⟨h.1 _ rfl rfl, h2.2.1 rfl, h3.2.2 _ rfl (by decide)⟩

end Otterdog
